import Mathlib

/-!
Verification of the trend-following trading engine (contractBot).

The definitions below are a shallow embedding of the decision core:
`src/strategy.py` (signal generation, trend detection, position mirror),
`src/risk_manager.py` (stop/take-profit levels, trigger checks, drawdown,
risk scoring), and the position bookkeeping of `src/trading_bot.py`
(`_execute_trade`, the Position Ledger of the design document).
Numbers are modelled as rationals (`ℚ`); Python exception handlers that
swallow an error and return a default are modelled as the corresponding
guard returning that default.
-/

namespace ContractBot

/-- Trading signal type (`SignalType` in `src/strategy.py`). -/
inductive SignalType where
  | BUY | SELL | LONG | SHORT | CLOSE_LONG | CLOSE_SHORT | HOLD
deriving DecidableEq, Repr

/-- Trend direction (`TrendDirection` in `src/strategy.py`). -/
inductive TrendDirection where
  | UP | DOWN | SIDEWAYS
deriving DecidableEq, Repr

/-- Risk level (`RiskLevel` in `src/risk_manager.py`). -/
inductive RiskLevel where
  | LOW | MEDIUM | HIGH | CRITICAL
deriving DecidableEq, Repr

/-- The trading mode, `config['trading']['trade_type']` (`'spot'` or `'futures'`). -/
inductive TradeType where
  | spot | futures
deriving DecidableEq, Repr

/-- One row of the indicator-enriched dataframe: exactly the columns that
`detect_trend` and `generate_signal` read (`df.iloc[-1]` / `df.iloc[-2]`). -/
structure IndRow where
  close : ℚ
  ema_fast : ℚ
  ema_slow : ℚ
  macd : ℚ
  macd_signal : ℚ
  macd_histogram : ℚ
  adx : ℚ
  adx_pos : ℚ
  adx_neg : ℚ
  bb_middle : ℚ
  rsi : ℚ
  volume_ratio : ℚ
deriving DecidableEq, Repr

/-- `config['strategy']['indicators']`: the twelve entries that
`src/strategy.py` reads from the indicator configuration dictionary. -/
structure IndicatorsConfig where
  ema_fast : ℚ
  ema_slow : ℚ
  macd_fast : ℚ
  macd_slow : ℚ
  macd_signal : ℚ
  adx_period : ℚ
  adx_threshold : ℚ
  bb_period : ℚ
  bb_std : ℚ
  rsi_period : ℚ
  rsi_overbought : ℚ
  rsi_oversold : ℚ
deriving DecidableEq, Repr

/-- `config['strategy']['signals']` (only `volume_threshold` is read). -/
structure SignalsConfig where
  volume_threshold : ℚ
deriving DecidableEq, Repr

/-- The part of the strategy configuration that signal generation reads. -/
structure StrategyConfig where
  indicators : IndicatorsConfig
  signals : SignalsConfig
deriving DecidableEq, Repr

/-- `max(self.indicators_config.values())`: the maximum over every value in
the indicator configuration dictionary, thresholds included. -/
def indicators_values_max (c : IndicatorsConfig) : ℚ :=
  max c.ema_fast (max c.ema_slow (max c.macd_fast (max c.macd_slow
    (max c.macd_signal (max c.adx_period (max c.adx_threshold
    (max c.bb_period (max c.bb_std (max c.rsi_period
    (max c.rsi_overbought c.rsi_oversold))))))))))

/-- Up-trend score of `detect_trend`: the sum of the five booleans
summed into `uptrend_score` in `src/strategy.py` lines 129-135. -/
def uptrend_score (c : IndicatorsConfig) (latest prev : IndRow) : ℕ :=
  (if latest.ema_fast > latest.ema_slow then 1 else 0) +
  (if latest.macd > latest.macd_signal then 1 else 0) +
  (if latest.adx > c.adx_threshold ∧ latest.adx_pos > latest.adx_neg then 1 else 0) +
  (if latest.close > latest.bb_middle then 1 else 0) +
  (if latest.close > prev.close then 1 else 0)

/-- Down-trend score of `detect_trend` (`src/strategy.py` lines 138-144). -/
def downtrend_score (c : IndicatorsConfig) (latest prev : IndRow) : ℕ :=
  (if ¬ latest.ema_fast > latest.ema_slow then 1 else 0) +
  (if ¬ latest.macd > latest.macd_signal then 1 else 0) +
  (if latest.adx > c.adx_threshold ∧ ¬ latest.adx_pos > latest.adx_neg then 1 else 0) +
  (if ¬ latest.close > latest.bb_middle then 1 else 0) +
  (if latest.close < prev.close then 1 else 0)

/-- `TrendFollowingStrategy.detect_trend`: `latest = df.iloc[-1]`,
`prev = df.iloc[-2] if len(df) > 1 else latest`; an empty frame raises
inside the `try` block and the handler returns `SIDEWAYS`. -/
def detect_trend (c : IndicatorsConfig) (rows : List IndRow) : TrendDirection :=
  match rows.getLast? with
  | none => TrendDirection.SIDEWAYS
  | some latest =>
    let prev := rows.getD (rows.length - 2) latest
    if uptrend_score c latest prev ≥ 3 then TrendDirection.UP
    else if downtrend_score c latest prev ≥ 3 then TrendDirection.DOWN
    else TrendDirection.SIDEWAYS

/-- The mutable fields of `TrendFollowingStrategy` that `generate_signal`
touches: `current_position` (read), `last_signal` and `trend_direction`
(written), `entry_price` (untouched). -/
structure StrategyState where
  current_position : ℚ
  last_signal : SignalType
  entry_price : ℚ
  trend_direction : TrendDirection
deriving DecidableEq, Repr

/-- `TrendFollowingStrategy.generate_signal` as a state transformer:
returns the emitted signal together with the updated strategy state.
The initial length guard returns `HOLD` without touching state; a frame
with fewer than two rows makes `df.iloc[-1]`/`df.iloc[-2]` raise, and the
exception handler returns `HOLD` (state untouched, since the raise happens
before any field write). -/
def generate_signal (cfg : StrategyConfig) (trade_type : TradeType)
    (st : StrategyState) (rows : List IndRow) : SignalType × StrategyState :=
  if (rows.length : ℚ) < indicators_values_max cfg.indicators then
    (SignalType.HOLD, st)
  else
    match rows.getLast? with
    | none => (SignalType.HOLD, st)
    | some latest =>
      if rows.length < 2 then (SignalType.HOLD, st)
      else
        let prev := rows.getD (rows.length - 2) latest
        let current_trend := detect_trend cfg.indicators rows
        let volume_confirmed := latest.volume_ratio > cfg.signals.volume_threshold
        let signal :=
          match trade_type with
          | TradeType.spot =>
            if current_trend = TrendDirection.UP ∧
               latest.ema_fast > latest.ema_slow ∧
               latest.macd > latest.macd_signal ∧
               latest.macd_histogram > prev.macd_histogram ∧
               latest.rsi < cfg.indicators.rsi_overbought ∧
               volume_confirmed ∧
               st.current_position ≤ 0 then SignalType.BUY
            else if current_trend = TrendDirection.DOWN ∧
               latest.ema_fast < latest.ema_slow ∧
               latest.macd < latest.macd_signal ∧
               latest.macd_histogram < prev.macd_histogram ∧
               latest.rsi > cfg.indicators.rsi_oversold ∧
               volume_confirmed ∧
               st.current_position > 0 then SignalType.SELL
            else SignalType.HOLD
          | TradeType.futures =>
            if current_trend = TrendDirection.UP ∧
               latest.ema_fast > latest.ema_slow ∧
               latest.macd > latest.macd_signal ∧
               latest.close > latest.bb_middle ∧
               volume_confirmed ∧
               st.current_position ≤ 0 then SignalType.LONG
            else if current_trend = TrendDirection.DOWN ∧
               latest.ema_fast < latest.ema_slow ∧
               latest.macd < latest.macd_signal ∧
               latest.close < latest.bb_middle ∧
               volume_confirmed ∧
               st.current_position ≥ 0 then SignalType.SHORT
            else if st.current_position > 0 ∧
               (current_trend = TrendDirection.DOWN ∨
                latest.ema_fast < latest.ema_slow ∨
                latest.macd < latest.macd_signal) then SignalType.CLOSE_LONG
            else if st.current_position < 0 ∧
               (current_trend = TrendDirection.UP ∨
                latest.ema_fast > latest.ema_slow ∨
                latest.macd > latest.macd_signal) then SignalType.CLOSE_SHORT
            else SignalType.HOLD
        (signal, { st with trend_direction := current_trend, last_signal := signal })

/-- `TrendFollowingStrategy.update_position`: the strategy object's own
position mirror (`src/strategy.py` lines 269-285). -/
def update_position (st : StrategyState) (signal_type : SignalType)
    (amount price : ℚ) : StrategyState :=
  if signal_type = SignalType.BUY ∨ signal_type = SignalType.LONG then
    { st with current_position := st.current_position + amount, entry_price := price }
  else if signal_type = SignalType.SELL ∨ signal_type = SignalType.SHORT then
    { st with current_position := st.current_position - amount, entry_price := price }
  else if signal_type = SignalType.CLOSE_LONG ∨ signal_type = SignalType.CLOSE_SHORT then
    { st with current_position := 0, entry_price := 0 }
  else st

/-- The Position Ledger state: `TradingBot.current_position` and
`TradingBot.entry_price` (`src/trading_bot.py`). -/
structure BotPosition where
  current_position : ℚ
  entry_price : ℚ
deriving DecidableEq, Repr

/-- The position-bookkeeping effect of `TradingBot._execute_trade`
(`src/trading_bot.py` lines 279-325) for a successfully executed order:
spot `BUY` adds `trade_amount` when the position is ≤ 0, spot `SELL`
subtracts `min(trade_amount, current_position)` when the position is > 0
and zeroes the entry price when the position drops to 0, `LONG`/`SHORT`
set the position to `±trade_amount`, and the close signals zero both
fields when a position exists; any signal whose branch guard fails leaves
the state unchanged. -/
def execute_trade_update (signal : SignalType) (trade_amount price : ℚ)
    (st : BotPosition) : BotPosition :=
  if signal = SignalType.BUY ∧ st.current_position ≤ 0 then
    { current_position := st.current_position + trade_amount, entry_price := price }
  else if signal = SignalType.SELL ∧ st.current_position > 0 then
    let sell_amount := min trade_amount st.current_position
    let new_position := st.current_position - sell_amount
    { current_position := new_position,
      entry_price := if new_position ≤ 0 then 0 else st.entry_price }
  else if signal = SignalType.LONG ∧ st.current_position ≤ 0 then
    { current_position := trade_amount, entry_price := price }
  else if signal = SignalType.SHORT ∧ st.current_position ≥ 0 then
    { current_position := -trade_amount, entry_price := price }
  else if (signal = SignalType.CLOSE_LONG ∨ signal = SignalType.CLOSE_SHORT) ∧
      st.current_position ≠ 0 then
    { current_position := 0, entry_price := 0 }
  else st

/-- `config['strategy']['risk_management']`: the entries that
`src/risk_manager.py` reads. -/
structure RiskConfig where
  stop_loss_pct : ℚ
  take_profit_pct : ℚ
  max_position_size : ℚ
  max_daily_trades : ℚ
deriving DecidableEq, Repr

/-- The mutable fields of `RiskManager` that the verified operations
touch (`daily_trades_count`, `daily_pnl`, `max_drawdown`,
`current_drawdown`). -/
structure RiskState where
  daily_trades_count : ℚ
  daily_pnl : ℚ
  max_drawdown : ℚ
  current_drawdown : ℚ
deriving DecidableEq, Repr

/-- `side.lower() in ['buy', 'long']`: the side test every
`RiskManager` pricing and trigger function performs on its `side`
string.  The Python code lower-cases the string first; sides are
modelled as the already lower-cased strings. -/
def side_is_long (side : String) : Bool :=
  side = "buy" || side = "long"

/-- `RiskManager.calculate_stop_loss`: the `'percentage'` method prices
`entry*(1 - pct)` for a long side and `entry*(1 + pct)` for any other
side; the `'atr'` method falls back to the `'percentage'` computation;
an unknown method raises `ValueError`, which the handler turns into 0. -/
def calculate_stop_loss (rc : RiskConfig) (entry_price : ℚ) (side : String)
    (method : String) : ℚ :=
  let stop_loss_pct := rc.stop_loss_pct / 100
  let percentage_price :=
    if side_is_long side then entry_price * (1 - stop_loss_pct)
    else entry_price * (1 + stop_loss_pct)
  if method = "percentage" then percentage_price
  else if method = "atr" then percentage_price
  else 0

/-- `RiskManager.calculate_take_profit`: `'percentage'` prices
`entry*(1 + pct)` long / `entry*(1 - pct)` short; `'risk_reward'` uses a
fixed 1:2 risk-reward ratio over the percentage stop; an unknown method
raises and the handler returns 0. -/
def calculate_take_profit (rc : RiskConfig) (entry_price : ℚ) (side : String)
    (method : String) : ℚ :=
  let take_profit_pct := rc.take_profit_pct / 100
  if method = "percentage" then
    if side_is_long side then entry_price * (1 + take_profit_pct)
    else entry_price * (1 - take_profit_pct)
  else if method = "risk_reward" then
    let risk_reward_ratio : ℚ := 2
    let stop_loss := calculate_stop_loss rc entry_price side "percentage"
    if side_is_long side then entry_price + (entry_price - stop_loss) * risk_reward_ratio
    else entry_price - (stop_loss - entry_price) * risk_reward_ratio
  else 0

/-- `RiskManager.check_stop_loss_trigger`: a flat position never
triggers; otherwise the current price is compared (non-strictly) against
the percentage stop level, `<=` for a long side and `>=` otherwise. -/
def check_stop_loss_trigger (rc : RiskConfig) (current_price entry_price : ℚ)
    (side : String) (position_size : ℚ) : Bool :=
  if position_size = 0 then false
  else
    let stop_loss_price := calculate_stop_loss rc entry_price side "percentage"
    if side_is_long side then current_price ≤ stop_loss_price
    else current_price ≥ stop_loss_price

/-- `RiskManager.check_take_profit_trigger`: a flat position never
triggers; otherwise `>=` the percentage take-profit level for a long
side, `<=` otherwise. -/
def check_take_profit_trigger (rc : RiskConfig) (current_price entry_price : ℚ)
    (side : String) (position_size : ℚ) : Bool :=
  if position_size = 0 then false
  else
    let take_profit_price := calculate_take_profit rc entry_price side "percentage"
    if side_is_long side then current_price ≥ take_profit_price
    else current_price ≤ take_profit_price

/-- `RiskManager.update_drawdown`: recomputes `current_drawdown` from the
given pnl and peak (0 when the peak is not positive) and folds it into
`max_drawdown` with `max`. -/
def update_drawdown (st : RiskState) (current_pnl peak_value : ℚ) : RiskState :=
  let cd := if peak_value > 0 then (peak_value - current_pnl) / peak_value * 100 else 0
  { st with current_drawdown := cd, max_drawdown := max st.max_drawdown cd }

/-- `RiskManager.assess_risk_level`: additive risk score from the
drawdown tier, the position ratio and the daily trade ratio, then mapped
to a level by the ≥5/≥3/≥1 thresholds.  A zero `max_position_size` or
`max_daily_trades` makes the Python division raise `ZeroDivisionError`,
and the handler returns `MEDIUM`.  The `current_pnl` and `volatility`
parameters are accepted but never read by the body. -/
def assess_risk_level (rc : RiskConfig) (st : RiskState)
    (current_pnl position_size volatility : ℚ) : RiskLevel :=
  if rc.max_position_size = 0 ∨ rc.max_daily_trades = 0 then RiskLevel.MEDIUM
  else
    let drawdown_score : ℕ :=
      if st.current_drawdown > 15 then 3
      else if st.current_drawdown > 10 then 2
      else if st.current_drawdown > 5 then 1
      else 0
    let position_ratio := |position_size| / rc.max_position_size
    let position_score : ℕ :=
      if position_ratio > 0.8 then 2
      else if position_ratio > 0.6 then 1
      else 0
    let trade_ratio := st.daily_trades_count / rc.max_daily_trades
    let trade_score : ℕ := if trade_ratio > 0.8 then 1 else 0
    let risk_score := drawdown_score + position_score + trade_score
    if risk_score ≥ 5 then RiskLevel.CRITICAL
    else if risk_score ≥ 3 then RiskLevel.HIGH
    else if risk_score ≥ 1 then RiskLevel.MEDIUM
    else RiskLevel.LOW

/-- `RiskManager.should_stop_trading`: true for `CRITICAL`, or when the
daily pnl is below the hard-coded -1000 floor. -/
def should_stop_trading (st : RiskState) (risk_level : RiskLevel) : Bool :=
  if risk_level = RiskLevel.CRITICAL then true
  else if st.daily_pnl < -1000 then true
  else false

/-- Following the design document's words: the additive risk score — one
drawdown tier (+3 above 15, else +2 above 10, else +1 above 5), the
position-ratio tier (+2 above 0.8, else +1 above 0.6), and +1 when the
daily trade ratio exceeds 0.8. -/
def risk_score_spec (rc : RiskConfig) (st : RiskState) (position_size : ℚ) : ℕ :=
  (if st.current_drawdown > 15 then 3
   else if st.current_drawdown > 10 then 2
   else if st.current_drawdown > 5 then 1
   else 0) +
  (if |position_size| / rc.max_position_size > 0.8 then 2
   else if |position_size| / rc.max_position_size > 0.6 then 1
   else 0) +
  (if st.daily_trades_count / rc.max_daily_trades > 0.8 then 1 else 0)

/-- Following the design document's words: the level thresholds
score ≥ 5 → CRITICAL, ≥ 3 → HIGH, ≥ 1 → MEDIUM, else LOW. -/
def risk_level_of_score (score : ℕ) : RiskLevel :=
  if score ≥ 5 then RiskLevel.CRITICAL
  else if score ≥ 3 then RiskLevel.HIGH
  else if score ≥ 1 then RiskLevel.MEDIUM
  else RiskLevel.LOW

/-- Risk configuration used in the Scenario C and Scenario E instances:
`stop_loss_pct = 10`, `take_profit_pct = 20`, `max_position_size = 1`,
`max_daily_trades = 10`. -/
def rcScenario : RiskConfig :=
  { stop_loss_pct := 10, take_profit_pct := 20
    max_position_size := 1, max_daily_trades := 10 }

/-- Risk state of Scenario E: drawdown 12%, 9 of 10 daily trades used. -/
def stScenarioE : RiskState :=
  { daily_trades_count := 9, daily_pnl := 0
    max_drawdown := 12, current_drawdown := 12 }

/-- C10: with `position_size = 0`, both `check_stop_loss_trigger` and
`check_take_profit_trigger` return false for every current price, entry
price and side. -/
theorem flat_position_never_triggers (rc : RiskConfig)
    (current_price entry_price : ℚ) (side : String) :
    check_stop_loss_trigger rc current_price entry_price side 0 = false ∧
    check_take_profit_trigger rc current_price entry_price side 0 = false := by
  constructor <;> simp [check_stop_loss_trigger, check_take_profit_trigger]

/-- Helper for C8: `max_drawdown` never decreases under a fold of
`update_drawdown` calls. -/
theorem update_drawdown_foldl_mono (calls : List (ℚ × ℚ)) (st : RiskState) :
    st.max_drawdown ≤
      (calls.foldl (fun s c => update_drawdown s c.1 c.2) st).max_drawdown := by
  induction calls generalizing st with
  | nil => exact le_refl _
  | cons c cs ih =>
    refine le_trans ?_ (ih (update_drawdown st c.1 c.2))
    simp [update_drawdown]

/-- C8: each `update_drawdown` call sets `current_drawdown` to
`(peak - pnl)/peak * 100` when the peak is positive and to 0 otherwise,
sets `max_drawdown` to the max of its previous value and the new current
drawdown, and consequently `max_drawdown` is non-decreasing across any
sequence of calls. -/
theorem update_drawdown_spec (st : RiskState) (current_pnl peak_value : ℚ) :
    ((update_drawdown st current_pnl peak_value).current_drawdown =
      if peak_value > 0 then (peak_value - current_pnl) / peak_value * 100 else 0) ∧
    ((update_drawdown st current_pnl peak_value).max_drawdown =
      max st.max_drawdown (update_drawdown st current_pnl peak_value).current_drawdown) ∧
    ∀ calls : List (ℚ × ℚ),
      st.max_drawdown ≤
        (calls.foldl (fun s c => update_drawdown s c.1 c.2) st).max_drawdown := by
  refine ⟨rfl, rfl, fun calls => update_drawdown_foldl_mono calls st⟩

/-- C5: for a nonzero position, the percentage stop level is
`entry*(1 - pct/100)` on the long side with trigger iff
`current ≤ level` (non-strict), and `entry*(1 + pct/100)` on the short
side with trigger iff `current ≥ level`. -/
theorem stop_loss_level_and_trigger (rc : RiskConfig)
    (current_price entry_price position_size : ℚ) (side : String)
    (hpos : position_size ≠ 0) :
    (side_is_long side = true →
      calculate_stop_loss rc entry_price side "percentage" =
        entry_price * (1 - rc.stop_loss_pct / 100) ∧
      (check_stop_loss_trigger rc current_price entry_price side position_size = true ↔
        current_price ≤ entry_price * (1 - rc.stop_loss_pct / 100))) ∧
    (side_is_long side = false →
      calculate_stop_loss rc entry_price side "percentage" =
        entry_price * (1 + rc.stop_loss_pct / 100) ∧
      (check_stop_loss_trigger rc current_price entry_price side position_size = true ↔
        current_price ≥ entry_price * (1 + rc.stop_loss_pct / 100))) := by
  constructor <;> intro hside <;>
    simp [calculate_stop_loss, check_stop_loss_trigger, hside, hpos]

/-- C5 witness (Scenario C): a long position of 2 units with entry 100
and `stop_loss_pct = 10` has stop level 90, and current price 89
triggers the stop. -/
theorem stop_loss_level_and_trigger_witness :
    (2 : ℚ) ≠ 0 ∧ side_is_long "long" = true ∧
    calculate_stop_loss rcScenario 100 "long" "percentage" = 90 ∧
    check_stop_loss_trigger rcScenario 89 100 "long" 2 = true := by
  have h := (stop_loss_level_and_trigger rcScenario 89 100 2 "long"
    (by norm_num)).1 (by decide)
  refine ⟨by norm_num, by decide, ?_, ?_⟩
  · rw [h.1]; norm_num [rcScenario]
  · exact h.2.mpr (by norm_num [rcScenario])

/-- C6: `assess_risk_level` computes exactly the additive risk score of
the design document and maps it through the ≥5/≥3/≥1 thresholds, and
`should_stop_trading` returns true whenever the level is CRITICAL. -/
theorem assess_risk_level_spec (rc : RiskConfig) (st : RiskState)
    (current_pnl position_size volatility : ℚ)
    (hmp : rc.max_position_size ≠ 0) (hmt : rc.max_daily_trades ≠ 0) :
    assess_risk_level rc st current_pnl position_size volatility =
      risk_level_of_score (risk_score_spec rc st position_size) ∧
    ∀ st' : RiskState, should_stop_trading st' RiskLevel.CRITICAL = true := by
  constructor
  · simp [assess_risk_level, risk_score_spec, risk_level_of_score, hmp, hmt]
  · intro st'
    simp [should_stop_trading]

/-- C6 witness (Scenario E): drawdown 12% (+2), position ratio 0.85
(+2) and trade ratio 0.9 (+1) give score 5, hence CRITICAL, and
`should_stop_trading` is true. -/
theorem assess_risk_level_spec_witness :
    rcScenario.max_position_size ≠ 0 ∧ rcScenario.max_daily_trades ≠ 0 ∧
    assess_risk_level rcScenario stScenarioE 0 0.85 0 = RiskLevel.CRITICAL ∧
    should_stop_trading stScenarioE RiskLevel.CRITICAL = true := by
  have h := assess_risk_level_spec rcScenario stScenarioE 0 0.85 0
    (by norm_num [rcScenario]) (by norm_num [rcScenario])
  refine ⟨by norm_num [rcScenario], by norm_num [rcScenario], ?_, h.2 stScenarioE⟩
  have habs : |(17 / 20 : ℚ)| = 17 / 20 := abs_of_nonneg (by norm_num)
  have hs : risk_score_spec rcScenario stScenarioE 0.85 = 5 := by
    norm_num [risk_score_spec, rcScenario, stScenarioE, habs]
  rw [h.1, hs]
  rfl

/-- One applied ledger step: a signal together with its amount and its
price. -/
def ledger_step (s : SignalType × ℚ × ℚ) (p : BotPosition) : BotPosition :=
  execute_trade_update s.1 s.2.1 s.2.2 p

/-- A sequence of signals applied through the Position Ledger's update
operation, left to right. -/
def apply_signals (steps : List (SignalType × ℚ × ℚ)) (p : BotPosition) : BotPosition :=
  steps.foldl (fun p s => ledger_step s p) p

/-- A ledger step of the spot signal family (`BUY`/`SELL`/`HOLD`) with
positive amount and positive price. -/
def spot_step (s : SignalType × ℚ × ℚ) : Prop :=
  (s.1 = SignalType.BUY ∨ s.1 = SignalType.SELL ∨ s.1 = SignalType.HOLD) ∧
  0 < s.2.1 ∧ 0 < s.2.2

/-- A ledger step of the futures signal family
(`LONG`/`SHORT`/`CLOSE_LONG`/`CLOSE_SHORT`/`HOLD`) with positive amount
and positive price. -/
def futures_step (s : SignalType × ℚ × ℚ) : Prop :=
  (s.1 = SignalType.LONG ∨ s.1 = SignalType.SHORT ∨
   s.1 = SignalType.CLOSE_LONG ∨ s.1 = SignalType.CLOSE_SHORT ∨
   s.1 = SignalType.HOLD) ∧
  0 < s.2.1 ∧ 0 < s.2.2

instance (s : SignalType × ℚ × ℚ) : Decidable (spot_step s) := by
  unfold spot_step
  infer_instance

instance (s : SignalType × ℚ × ℚ) : Decidable (futures_step s) := by
  unfold futures_step
  infer_instance

/-- Inductive invariant of the ledger under spot-family steps: the
position is never negative and is zero exactly when the entry price is. -/
def spot_inv (p : BotPosition) : Prop :=
  0 ≤ p.current_position ∧ (p.current_position = 0 ↔ p.entry_price = 0)

/-- Inductive invariant of the ledger under futures-family steps. -/
def futures_inv (p : BotPosition) : Prop :=
  p.current_position = 0 ↔ p.entry_price = 0

/-- Evaluation of the ledger update at a `BUY` signal. -/
theorem execute_trade_update_buy (a pr : ℚ) (p : BotPosition) :
    execute_trade_update SignalType.BUY a pr p =
      if p.current_position ≤ 0 then ⟨p.current_position + a, pr⟩ else p := by
  simp [execute_trade_update]

/-- Evaluation of the ledger update at a `SELL` signal. -/
theorem execute_trade_update_sell (a pr : ℚ) (p : BotPosition) :
    execute_trade_update SignalType.SELL a pr p =
      if 0 < p.current_position then
        ⟨p.current_position - min a p.current_position,
         if p.current_position - min a p.current_position ≤ 0 then 0
         else p.entry_price⟩
      else p := by
  simp [execute_trade_update]

/-- Evaluation of the ledger update at a `LONG` signal. -/
theorem execute_trade_update_long (a pr : ℚ) (p : BotPosition) :
    execute_trade_update SignalType.LONG a pr p =
      if p.current_position ≤ 0 then ⟨a, pr⟩ else p := by
  simp [execute_trade_update]

/-- Evaluation of the ledger update at a `SHORT` signal. -/
theorem execute_trade_update_short (a pr : ℚ) (p : BotPosition) :
    execute_trade_update SignalType.SHORT a pr p =
      if 0 ≤ p.current_position then ⟨-a, pr⟩ else p := by
  simp [execute_trade_update]

/-- Evaluation of the ledger update at the close signals. -/
theorem execute_trade_update_close (sig : SignalType) (a pr : ℚ) (p : BotPosition)
    (h : sig = SignalType.CLOSE_LONG ∨ sig = SignalType.CLOSE_SHORT) :
    execute_trade_update sig a pr p =
      if p.current_position = 0 then p else ⟨0, 0⟩ := by
  rcases h with h | h <;> subst h <;> simp [execute_trade_update]

/-- Evaluation of the ledger update at a `HOLD` signal. -/
theorem execute_trade_update_hold (a pr : ℚ) (p : BotPosition) :
    execute_trade_update SignalType.HOLD a pr p = p := by
  simp [execute_trade_update]

/-- A spot-family step preserves the spot ledger invariant. -/
theorem spot_step_preserves (s : SignalType × ℚ × ℚ) (p : BotPosition)
    (hs : spot_step s) (hp : spot_inv p) : spot_inv (ledger_step s p) := by
  obtain ⟨hsig, ha, hpr⟩ := hs
  obtain ⟨hpos, hiff⟩ := hp
  obtain ⟨sig, a, pr⟩ := s
  simp only at hsig ha hpr
  unfold ledger_step spot_inv
  simp only
  rcases hsig with h | h | h <;> subst h
  · -- BUY
    rw [execute_trade_update_buy]
    by_cases hb : p.current_position ≤ 0
    · have h0 : p.current_position = 0 := le_antisymm hb hpos
      rw [if_pos hb]
      dsimp only
      refine ⟨by simp only [h0]; linarith, ?_, ?_⟩
      · intro h'
        exfalso
        rw [h0, zero_add] at h'
        linarith
      · intro h'
        exfalso
        linarith
    · rw [if_neg hb]
      exact ⟨hpos, hiff⟩
  · -- SELL
    rw [execute_trade_update_sell]
    by_cases hgt : 0 < p.current_position
    · rw [if_pos hgt]
      have hmin : min a p.current_position ≤ p.current_position :=
        min_le_right a p.current_position
      by_cases hle : p.current_position - min a p.current_position ≤ 0
      · rw [if_pos hle]
        dsimp only
        have h0 : p.current_position - min a p.current_position = 0 := by linarith
        exact ⟨by linarith, by simp [h0]⟩
      · rw [if_neg hle]
        dsimp only
        refine ⟨by linarith, ?_, fun h' => absurd (hiff.mpr h') (ne_of_gt hgt)⟩
        intro h'
        exact absurd (le_of_eq h') hle
    · rw [if_neg hgt]
      exact ⟨hpos, hiff⟩
  · -- HOLD
    rw [execute_trade_update_hold]
    exact ⟨hpos, hiff⟩

/-- A futures-family step preserves the futures ledger invariant. -/
theorem futures_step_preserves (s : SignalType × ℚ × ℚ) (p : BotPosition)
    (hs : futures_step s) (hp : futures_inv p) : futures_inv (ledger_step s p) := by
  obtain ⟨hsig, ha, hpr⟩ := hs
  obtain ⟨sig, a, pr⟩ := s
  simp only at hsig ha hpr
  unfold futures_inv at hp ⊢
  unfold ledger_step
  rcases hsig with h | h | h | h | h
  · -- LONG
    subst h
    rw [execute_trade_update_long]
    by_cases hb : p.current_position ≤ 0
    · rw [if_pos hb]
      dsimp only
      constructor
      · intro h'
        exact absurd h' (ne_of_gt ha)
      · intro h'
        exact absurd h' (ne_of_gt hpr)
    · rw [if_neg hb]
      exact hp
  · -- SHORT
    subst h
    rw [execute_trade_update_short]
    by_cases hge : 0 ≤ p.current_position
    · rw [if_pos hge]
      dsimp only
      constructor
      · intro h'
        exact absurd (neg_eq_zero.mp h') (ne_of_gt ha)
      · intro h'
        exact absurd h' (ne_of_gt hpr)
    · rw [if_neg hge]
      exact hp
  · -- CLOSE_LONG
    rw [execute_trade_update_close sig a pr p (Or.inl h)]
    by_cases h0 : p.current_position = 0
    · rw [if_pos h0]
      exact hp
    · rw [if_neg h0]
  · -- CLOSE_SHORT
    rw [execute_trade_update_close sig a pr p (Or.inr h)]
    by_cases h0 : p.current_position = 0
    · rw [if_pos h0]
      exact hp
    · rw [if_neg h0]
  · -- HOLD
    subst h
    rw [execute_trade_update_hold]
    exact hp

/-- The spot invariant is preserved by any fold of spot-family steps. -/
theorem apply_signals_spot_inv (steps : List (SignalType × ℚ × ℚ))
    (p : BotPosition) (hs : ∀ s ∈ steps, spot_step s) (hp : spot_inv p) :
    spot_inv (apply_signals steps p) := by
  induction steps generalizing p with
  | nil => exact hp
  | cons s ss ih =>
    exact ih (ledger_step s p) (fun x hx => hs x (List.mem_cons_of_mem s hx))
      (spot_step_preserves s p (hs s (List.mem_cons_self s ss)) hp)

/-- The futures invariant is preserved by any fold of futures-family
steps. -/
theorem apply_signals_futures_inv (steps : List (SignalType × ℚ × ℚ))
    (p : BotPosition) (hs : ∀ s ∈ steps, futures_step s) (hp : futures_inv p) :
    futures_inv (apply_signals steps p) := by
  induction steps generalizing p with
  | nil => exact hp
  | cons s ss ih =>
    exact ih (ledger_step s p) (fun x hx => hs x (List.mem_cons_of_mem s hx))
      (futures_step_preserves s p (hs s (List.mem_cons_self s ss)) hp)

/-- C1 counterexample: the claim fails for a mixed-family sequence.
From the flat position, `SHORT` 5 units at price 10 followed by `BUY` 5
units at price 20 (both amounts and prices positive) leaves the quantity
at 0 while the entry price is the nonzero 20. -/
theorem ledger_invariant_counterexample :
    (apply_signals [(SignalType.SHORT, 5, 10), (SignalType.BUY, 5, 20)]
      ⟨0, 0⟩).current_position = 0 ∧
    (apply_signals [(SignalType.SHORT, 5, 10), (SignalType.BUY, 5, 20)]
      ⟨0, 0⟩).entry_price ≠ 0 := by
  have hshort : ledger_step (SignalType.SHORT, (5 : ℚ), (10 : ℚ)) ⟨0, 0⟩ =
      ⟨-5, 10⟩ := by
    unfold ledger_step
    rw [execute_trade_update_short]
    norm_num
  have hbuy : ledger_step (SignalType.BUY, (5 : ℚ), (20 : ℚ)) ⟨-5, 10⟩ =
      ⟨0, 20⟩ := by
    unfold ledger_step
    rw [execute_trade_update_buy]
    rw [if_pos (by norm_num : ((⟨-5, 10⟩ : BotPosition)).current_position ≤ 0)]
    norm_num [BotPosition.mk.injEq]
  have happ : apply_signals [(SignalType.SHORT, 5, 10), (SignalType.BUY, 5, 20)]
      ⟨0, 0⟩ = ⟨0, 20⟩ := by
    show ledger_step (SignalType.BUY, 5, 20)
      (ledger_step (SignalType.SHORT, 5, 10) ⟨0, 0⟩) = ⟨0, 20⟩
    rw [hshort, hbuy]
  rw [happ]
  exact ⟨rfl, by norm_num⟩

/-- C1 (amended): starting from the flat position, a sequence of applied
signals that stays inside one trading mode's signal family — spot
(`BUY`/`SELL`/`HOLD`) or futures
(`LONG`/`SHORT`/`CLOSE_LONG`/`CLOSE_SHORT`/`HOLD`) — with positive
amounts and positive prices maintains
`quantity == 0 ↔ entry_price == 0`. -/
theorem ledger_invariant_single_mode (steps : List (SignalType × ℚ × ℚ))
    (h : (∀ s ∈ steps, spot_step s) ∨ (∀ s ∈ steps, futures_step s)) :
    ((apply_signals steps ⟨0, 0⟩).current_position = 0 ↔
      (apply_signals steps ⟨0, 0⟩).entry_price = 0) := by
  rcases h with h | h
  · exact (apply_signals_spot_inv steps ⟨0, 0⟩ h ⟨le_refl 0, by simp⟩).2
  · exact apply_signals_futures_inv steps ⟨0, 0⟩ h (by simp [futures_inv])

/-- C1 witness: a concrete spot run — buy one unit at 100, then sell one
unit at 90 — satisfies the invariant at the end. -/
theorem ledger_invariant_single_mode_witness :
    (∀ s ∈ [(SignalType.BUY, (1 : ℚ), (100 : ℚ)), (SignalType.SELL, 1, 90)],
      spot_step s) ∧
    ((apply_signals [(SignalType.BUY, 1, 100), (SignalType.SELL, 1, 90)]
        ⟨0, 0⟩).current_position = 0 ↔
      (apply_signals [(SignalType.BUY, 1, 100), (SignalType.SELL, 1, 90)]
        ⟨0, 0⟩).entry_price = 0) :=
  ⟨by decide, ledger_invariant_single_mode
    [(SignalType.BUY, 1, 100), (SignalType.SELL, 1, 90)] (Or.inl (by decide))⟩

/-- C2: a `SELL` applied to a position of quantity `q > 0` reduces the
quantity by `min(amount, q)`, never drives it below zero, resets the
entry price to 0 exactly when the quantity reaches 0, and leaves it
unchanged otherwise. -/
theorem sell_reduces_by_min (amount price q e : ℚ) (hq : 0 < q) :
    (execute_trade_update SignalType.SELL amount price ⟨q, e⟩).current_position =
      q - min amount q ∧
    0 ≤ (execute_trade_update SignalType.SELL amount price ⟨q, e⟩).current_position ∧
    ((execute_trade_update SignalType.SELL amount price ⟨q, e⟩).current_position = 0 →
      (execute_trade_update SignalType.SELL amount price ⟨q, e⟩).entry_price = 0) ∧
    ((execute_trade_update SignalType.SELL amount price ⟨q, e⟩).current_position ≠ 0 →
      (execute_trade_update SignalType.SELL amount price ⟨q, e⟩).entry_price = e) := by
  have hmin : min amount q ≤ q := min_le_right amount q
  have hP : execute_trade_update SignalType.SELL amount price ⟨q, e⟩ =
      ⟨q - min amount q, if q - min amount q ≤ 0 then 0 else e⟩ := by
    rw [execute_trade_update_sell]
    dsimp only
    rw [if_pos hq]
  rw [hP]
  dsimp only
  by_cases hle : q - min amount q ≤ 0
  · have h0 : q - min amount q = 0 := le_antisymm hle (by linarith)
    rw [if_pos hle]
    exact ⟨rfl, by linarith, fun _ => rfl, fun hne => absurd h0 hne⟩
  · rw [if_neg hle]
    refine ⟨rfl, by linarith, ?_, fun _ => rfl⟩
    intro h0
    exact absurd (le_of_eq h0) hle

/-- C2 witness: selling 5 units from a 2-unit position at entry 100
removes `min(5, 2) = 2` units, leaves quantity 0 and resets the entry
price. -/
theorem sell_reduces_by_min_witness :
    (0 : ℚ) < 2 ∧
    (execute_trade_update SignalType.SELL 5 90 ⟨2, 100⟩).current_position =
      2 - min (5 : ℚ) 2 ∧
    (execute_trade_update SignalType.SELL 5 90 ⟨2, 100⟩).entry_price = 0 := by
  have h := sell_reduces_by_min 5 90 2 100 (by norm_num)
  refine ⟨by norm_num, h.1, h.2.2.1 ?_⟩
  rw [h.1]
  norm_num

/-- Following the design document's words: "the largest indicator
lookback period (configurable; typically the slow EMA or ADX period)" —
the maximum of the eight configured window lengths (the EMA, MACD, ADX,
Bollinger and RSI periods), thresholds excluded. -/
def largest_lookback_period (c : IndicatorsConfig) : ℚ :=
  max c.ema_fast (max c.ema_slow (max c.macd_fast (max c.macd_slow
    (max c.macd_signal (max c.adx_period (max c.bb_period c.rsi_period))))))

/-- A candle window made of `n` copies of an earlier row followed by the
latest row, so `df.iloc[-1]` is `l` and, for `n ≥ 1`, `df.iloc[-2]` is
`p`. -/
def window (n : ℕ) (p l : IndRow) : List IndRow := List.replicate n p ++ [l]

/-- Length of such a window. -/
theorem window_length (n : ℕ) (p l : IndRow) : (window n p l).length = n + 1 := by
  simp [window]

/-- The last row of such a window. -/
theorem window_getLast (n : ℕ) (p l : IndRow) :
    (window n p l).getLast? = some l := by
  simp [window]

/-- The second-to-last row of such a window. -/
theorem window_getD_prev (n : ℕ) (hn : 1 ≤ n) (p l d : IndRow) :
    (window n p l).getD (n - 1) d = p := by
  unfold window
  rw [List.getD_eq_getElem?_getD]
  rw [List.getElem?_append]
  rw [if_pos (by simp; omega)]
  rw [List.getElem?_replicate]
  rw [if_pos (by omega)]
  rfl

/-- The flat strategy state: position 0, entry price 0, caches at their
initial values. -/
def stFlat : StrategyState :=
  { current_position := 0, last_signal := SignalType.HOLD
    entry_price := 0, trend_direction := TrendDirection.SIDEWAYS }

/-- Shared evaluation lemma: once the length guard passes and the window
has at least two rows, the spot branch of `generate_signal` emits `BUY`
exactly when the seven buy conditions hold. -/
theorem generate_signal_spot_buy_iff_aux (cfg : StrategyConfig)
    (st : StrategyState) (rows : List IndRow) (latest prev : IndRow)
    (hguard : ¬ (rows.length : ℚ) < indicators_values_max cfg.indicators)
    (h2 : 2 ≤ rows.length)
    (hl : rows.getLast? = some latest)
    (hp : rows.getD (rows.length - 2) latest = prev) :
    ((generate_signal cfg TradeType.spot st rows).1 = SignalType.BUY ↔
      (detect_trend cfg.indicators rows = TrendDirection.UP ∧
       latest.ema_fast > latest.ema_slow ∧
       latest.macd > latest.macd_signal ∧
       latest.macd_histogram > prev.macd_histogram ∧
       latest.rsi < cfg.indicators.rsi_overbought ∧
       latest.volume_ratio > cfg.signals.volume_threshold ∧
       st.current_position ≤ 0)) := by
  have hn2 : ¬ rows.length < 2 := by omega
  unfold generate_signal
  rw [if_neg hguard]
  simp only [hl, hn2, if_false, hp]
  split_ifs with hb hs
  · exact iff_of_true rfl hb
  · exact iff_of_false (by simp) hb
  · exact iff_of_false (by simp) hb

/-- C4: in spot mode, with the length guard satisfied and at least two
rows, `generate_signal` returns `BUY` if and only if the trend is UP,
fast EMA > slow EMA, MACD > MACD signal, the histogram is rising, RSI is
below the overbought threshold, the volume ratio exceeds the volume
threshold, and the current position is ≤ 0. -/
theorem generate_signal_spot_buy_iff (cfg : StrategyConfig)
    (st : StrategyState) (rows : List IndRow) (latest prev : IndRow)
    (hguard : ¬ (rows.length : ℚ) < indicators_values_max cfg.indicators)
    (h2 : 2 ≤ rows.length)
    (hl : rows.getLast? = some latest)
    (hp : rows.getD (rows.length - 2) latest = prev) :
    ((generate_signal cfg TradeType.spot st rows).1 = SignalType.BUY ↔
      (detect_trend cfg.indicators rows = TrendDirection.UP ∧
       latest.ema_fast > latest.ema_slow ∧
       latest.macd > latest.macd_signal ∧
       latest.macd_histogram > prev.macd_histogram ∧
       latest.rsi < cfg.indicators.rsi_overbought ∧
       latest.volume_ratio > cfg.signals.volume_threshold ∧
       st.current_position ≤ 0)) :=
  generate_signal_spot_buy_iff_aux cfg st rows latest prev hguard h2 hl hp

/-- Scenario B configuration: small indicator periods, RSI overbought
70, oversold 30, volume threshold 1.5; the maximum configuration value
is the RSI overbought level 70. -/
def cfgScenB : StrategyConfig :=
  { indicators :=
      { ema_fast := 2, ema_slow := 3, macd_fast := 2, macd_slow := 3
        macd_signal := 2, adx_period := 2, adx_threshold := 1, bb_period := 3
        bb_std := 2, rsi_period := 2, rsi_overbought := 70, rsi_oversold := 30 }
    signals := { volume_threshold := 1.5 } }

/-- Scenario B's earlier row: close 104, MACD histogram 0.2. -/
def prevRowB : IndRow :=
  { close := 104, ema_fast := 0, ema_slow := 0, macd := 0, macd_signal := 0
    macd_histogram := 0.2, adx := 0, adx_pos := 0, adx_neg := 0
    bb_middle := 0, rsi := 0, volume_ratio := 0 }

/-- Scenario B's latest row: fast EMA 110 > slow EMA 100, MACD 1.2 >
signal 1.0, histogram 0.3 (rising from 0.2), RSI 55 < 70, volume ratio
1.8 > 1.5, close 105 above the Bollinger middle 100 and the previous
close 104. -/
def latestRowB : IndRow :=
  { close := 105, ema_fast := 110, ema_slow := 100, macd := 1.2
    macd_signal := 1.0, macd_histogram := 0.3, adx := 0, adx_pos := 0
    adx_neg := 0, bb_middle := 100, rsi := 55, volume_ratio := 1.8 }

/-- C4 witness (Scenario B): on a 70-row window carrying the Scenario B
indicator values, the flat-position spot signal is `BUY`. -/
theorem generate_signal_spot_buy_iff_witness :
    (generate_signal cfgScenB TradeType.spot stFlat
      (window 69 prevRowB latestRowB)).1 = SignalType.BUY := by
  have hmax : indicators_values_max cfgScenB.indicators = 70 := by
    norm_num [indicators_values_max, cfgScenB, max_def]
  have hlen : (window 69 prevRowB latestRowB).length = 70 :=
    window_length 69 prevRowB latestRowB
  have hguard : ¬ ((window 69 prevRowB latestRowB).length : ℚ) <
      indicators_values_max cfgScenB.indicators := by
    rw [hlen, hmax]
    norm_num
  have h2 : 2 ≤ (window 69 prevRowB latestRowB).length := by
    rw [hlen]
    omega
  have hprev : (window 69 prevRowB latestRowB).getD
      ((window 69 prevRowB latestRowB).length - 2) latestRowB = prevRowB := by
    rw [hlen]
    exact window_getD_prev 69 (by omega) prevRowB latestRowB latestRowB
  have hprev2 : (window 69 prevRowB latestRowB).getD (70 - 2) latestRowB =
      prevRowB :=
    window_getD_prev 69 (by omega) prevRowB latestRowB latestRowB
  have hscore : uptrend_score cfgScenB.indicators latestRowB prevRowB ≥ 3 := by
    norm_num [uptrend_score, cfgScenB, latestRowB, prevRowB]
  have htrend : detect_trend cfgScenB.indicators (window 69 prevRowB latestRowB) =
      TrendDirection.UP := by
    simp only [detect_trend, window_getLast, hlen, hprev2]
    rw [if_pos hscore]
  refine (generate_signal_spot_buy_iff cfgScenB stFlat
    (window 69 prevRowB latestRowB) latestRowB prevRowB hguard h2
    (window_getLast 69 prevRowB latestRowB) hprev).mpr ?_
  refine ⟨htrend, ?_, ?_, ?_, ?_, ?_, ?_⟩ <;>
    norm_num [latestRowB, prevRowB, cfgScenB, stFlat]

/-- C3 (amended): for every window strictly shorter than the maximum of
all configured indicator values — lookback periods and thresholds alike
— `generate_signal` returns `HOLD`, in both modes and for every position
state. -/
theorem generate_hold_short_window (cfg : StrategyConfig)
    (trade_type : TradeType) (st : StrategyState) (rows : List IndRow)
    (h : (rows.length : ℚ) < indicators_values_max cfg.indicators) :
    (generate_signal cfg trade_type st rows).1 = SignalType.HOLD := by
  unfold generate_signal
  rw [if_pos h]

/-- C3 witness: the empty window is shorter than the Scenario B bound
and yields `HOLD`. -/
theorem generate_hold_short_window_witness :
    ((List.length ([] : List IndRow) : ℚ) <
      indicators_values_max cfgScenB.indicators) ∧
    (generate_signal cfgScenB TradeType.spot stFlat []).1 = SignalType.HOLD := by
  have hmax : indicators_values_max cfgScenB.indicators = 70 := by
    norm_num [indicators_values_max, cfgScenB, max_def]
  have hshort : ((List.length ([] : List IndRow) : ℚ) <
      indicators_values_max cfgScenB.indicators) := by
    rw [hmax]
    norm_num
  exact ⟨hshort, generate_hold_short_window cfgScenB TradeType.spot stFlat [] hshort⟩

/-- A configuration whose largest lookback period (slow EMA 100) is at
least every configured threshold, so `max(indicators.values())` is the
lookback itself rather than a threshold. -/
def cfgLong : StrategyConfig :=
  { indicators :=
      { ema_fast := 5, ema_slow := 100, macd_fast := 12, macd_slow := 26
        macd_signal := 9, adx_period := 14, adx_threshold := 25, bb_period := 20
        bb_std := 2, rsi_period := 14, rsi_overbought := 70, rsi_oversold := 30 }
    signals := { volume_threshold := 1.5 } }

/-- Earlier row for the C3 counterexample window. -/
def prevRowLong : IndRow :=
  { close := 104, ema_fast := 0, ema_slow := 0, macd := 0, macd_signal := 0
    macd_histogram := 0.2, adx := 0, adx_pos := 0, adx_neg := 0
    bb_middle := 0, rsi := 0, volume_ratio := 0 }

/-- Latest row for the C3 counterexample window: every buy condition
holds (trend UP with all five score conditions, rising histogram, RSI
55 < 70, volume 1.8 > 1.5). -/
def latestRowLong : IndRow :=
  { close := 105, ema_fast := 110, ema_slow := 100, macd := 1.2
    macd_signal := 1.0, macd_histogram := 0.3, adx := 30, adx_pos := 20
    adx_neg := 10, bb_middle := 100, rsi := 55, volume_ratio := 1.8 }

/-- C3 counterexample: with `cfgLong` the minimum lookback claimed by
the specification is `100 + 1`, yet the 100-row window below — shorter
than that bound — produces `BUY`, not `HOLD`: the code's guard is
`len(df) < max(indicators_config.values())`, which is 100 here, not
`largest lookback + 1 = 101`. -/
theorem generate_hold_short_window_counterexample :
    (((window 99 prevRowLong latestRowLong).length : ℚ) <
      largest_lookback_period cfgLong.indicators + 1) ∧
    (generate_signal cfgLong TradeType.spot stFlat
      (window 99 prevRowLong latestRowLong)).1 = SignalType.BUY := by
  have hmax : indicators_values_max cfgLong.indicators = 100 := by
    norm_num [indicators_values_max, cfgLong, max_def]
  have hlook : largest_lookback_period cfgLong.indicators = 100 := by
    norm_num [largest_lookback_period, cfgLong, max_def]
  have hlen : (window 99 prevRowLong latestRowLong).length = 100 :=
    window_length 99 prevRowLong latestRowLong
  have hguard : ¬ ((window 99 prevRowLong latestRowLong).length : ℚ) <
      indicators_values_max cfgLong.indicators := by
    rw [hlen, hmax]
    norm_num
  have hprev : (window 99 prevRowLong latestRowLong).getD
      ((window 99 prevRowLong latestRowLong).length - 2) latestRowLong =
      prevRowLong := by
    rw [hlen]
    exact window_getD_prev 99 (by omega) prevRowLong latestRowLong latestRowLong
  have hprev2 : (window 99 prevRowLong latestRowLong).getD (100 - 2) latestRowLong =
      prevRowLong :=
    window_getD_prev 99 (by omega) prevRowLong latestRowLong latestRowLong
  have hscore : uptrend_score cfgLong.indicators latestRowLong prevRowLong ≥ 3 := by
    norm_num [uptrend_score, cfgLong, latestRowLong, prevRowLong]
  have htrend : detect_trend cfgLong.indicators
      (window 99 prevRowLong latestRowLong) = TrendDirection.UP := by
    simp only [detect_trend, window_getLast, hlen, hprev2]
    rw [if_pos hscore]
  constructor
  · rw [hlen, hlook]
    norm_num
  · refine (generate_signal_spot_buy_iff_aux cfgLong stFlat
      (window 99 prevRowLong latestRowLong) latestRowLong prevRowLong hguard
      (by rw [hlen]; omega)
      (window_getLast 99 prevRowLong latestRowLong) hprev).mpr ?_
    refine ⟨htrend, ?_, ?_, ?_, ?_, ?_, ?_⟩ <;>
      norm_num [latestRowLong, prevRowLong, cfgLong, stFlat]

/-- C7: for a window with at least two rows, `detect_trend` returns UP
when the up-score reaches 3, otherwise DOWN when the down-score reaches
3, otherwise SIDEWAYS; the two scores sum to at most 5 because each of
the five condition pairs contributes to at most one score, so they can
never both reach 3. -/
theorem detect_trend_majority (c : IndicatorsConfig) (rows : List IndRow)
    (latest prev : IndRow) (h2 : 2 ≤ rows.length)
    (hl : rows.getLast? = some latest)
    (hp : rows.getD (rows.length - 2) latest = prev) :
    (detect_trend c rows =
      if uptrend_score c latest prev ≥ 3 then TrendDirection.UP
      else if downtrend_score c latest prev ≥ 3 then TrendDirection.DOWN
      else TrendDirection.SIDEWAYS) ∧
    uptrend_score c latest prev + downtrend_score c latest prev ≤ 5 ∧
    ¬(uptrend_score c latest prev ≥ 3 ∧ downtrend_score c latest prev ≥ 3) := by
  have p1 : ((if latest.ema_fast > latest.ema_slow then 1 else 0) : ℕ) +
      ((if ¬ latest.ema_fast > latest.ema_slow then 1 else 0) : ℕ) = 1 := by
    by_cases h : latest.ema_fast > latest.ema_slow <;> simp [h]
  have p2 : ((if latest.macd > latest.macd_signal then 1 else 0) : ℕ) +
      ((if ¬ latest.macd > latest.macd_signal then 1 else 0) : ℕ) = 1 := by
    by_cases h : latest.macd > latest.macd_signal <;> simp [h]
  have p3 : ((if latest.adx > c.adx_threshold ∧ latest.adx_pos > latest.adx_neg
        then 1 else 0) : ℕ) +
      ((if latest.adx > c.adx_threshold ∧ ¬ latest.adx_pos > latest.adx_neg
        then 1 else 0) : ℕ) ≤ 1 := by
    by_cases ha : latest.adx > c.adx_threshold <;>
      by_cases hd : latest.adx_pos > latest.adx_neg <;> simp [ha, hd]
  have p4 : ((if latest.close > latest.bb_middle then 1 else 0) : ℕ) +
      ((if ¬ latest.close > latest.bb_middle then 1 else 0) : ℕ) = 1 := by
    by_cases h : latest.close > latest.bb_middle <;> simp [h]
  have p5 : ((if latest.close > prev.close then 1 else 0) : ℕ) +
      ((if latest.close < prev.close then 1 else 0) : ℕ) ≤ 1 := by
    rcases lt_trichotomy latest.close prev.close with h | h | h
    · simp [h, lt_asymm h]
    · simp [h]
    · simp [h, lt_asymm h]
  have hsum : uptrend_score c latest prev + downtrend_score c latest prev ≤ 5 := by
    unfold uptrend_score downtrend_score
    linarith [p1, p2, p3, p4, p5]
  refine ⟨?_, hsum, ?_⟩
  · simp only [detect_trend, hl, hp]
  · rintro ⟨hu, hd⟩
    linarith

/-- C7 witness: on a two-row window whose latest row satisfies four of
the five up conditions, the classifier returns UP. -/
theorem detect_trend_majority_witness :
    2 ≤ (window 1 prevRowB latestRowB).length ∧
    (window 1 prevRowB latestRowB).getLast? = some latestRowB ∧
    detect_trend cfgScenB.indicators (window 1 prevRowB latestRowB) =
      TrendDirection.UP := by
  have h := detect_trend_majority cfgScenB.indicators
    (window 1 prevRowB latestRowB) latestRowB prevRowB
    (by norm_num [window_length])
    (window_getLast 1 prevRowB latestRowB)
    (window_getD_prev 1 (le_refl 1) prevRowB latestRowB latestRowB)
  have hscore : uptrend_score cfgScenB.indicators latestRowB prevRowB ≥ 3 := by
    norm_num [uptrend_score, cfgScenB, latestRowB, prevRowB]
  refine ⟨by norm_num [window_length], window_getLast 1 prevRowB latestRowB, ?_⟩
  rw [h.1, if_pos hscore]

/-- C9: the emitted signal depends on the strategy state only through
`current_position`; the cached `last_signal` and `trend_direction` are
written but never read, so two runs on the same window, position and
configuration agree whatever the cache holds. -/
theorem generate_signal_cache_independent (cfg : StrategyConfig)
    (trade_type : TradeType) (rows : List IndRow) (s1 s2 : StrategyState)
    (h : s1.current_position = s2.current_position) :
    (generate_signal cfg trade_type s1 rows).1 =
      (generate_signal cfg trade_type s2 rows).1 := by
  unfold generate_signal
  by_cases hg : (rows.length : ℚ) < indicators_values_max cfg.indicators
  · rw [if_pos hg, if_pos hg]
  · rw [if_neg hg, if_neg hg]
    cases hrows : rows.getLast? with
    | none => rfl
    | some latest =>
      dsimp only
      by_cases h2 : rows.length < 2
      · rw [if_pos h2, if_pos h2]
      · rw [if_neg h2, if_neg h2]
        dsimp only
        rw [h]

/-- A strategy state with the same flat position as `stFlat` but a
different cached signal, entry price and trend direction. -/
def stCacheB : StrategyState :=
  { current_position := 0, last_signal := SignalType.BUY
    entry_price := 123, trend_direction := TrendDirection.UP }

/-- C9 witness: with the Scenario B window, the flat state and a state
whose cache fields differ produce the same signal. -/
theorem generate_signal_cache_independent_witness :
    stFlat.current_position = stCacheB.current_position ∧
    (generate_signal cfgScenB TradeType.spot stFlat
        (window 69 prevRowB latestRowB)).1 =
      (generate_signal cfgScenB TradeType.spot stCacheB
        (window 69 prevRowB latestRowB)).1 :=
  ⟨rfl, generate_signal_cache_independent cfgScenB TradeType.spot
    (window 69 prevRowB latestRowB) stFlat stCacheB rfl⟩

end ContractBot
